import Mathlib

/-!
Shallow embedding of `src/helpers/storage-records.js`: a bounded,
append-friendly record store (catalog → record-sets → daily records)
over an asynchronous key-value backend.

The promise chains of the source are sequential, so each stage is a pure
function; the backend is a map from string keys to stored values, and the
mutating storage calls a stage issues (`storage.local.set`,
`storage.local.remove`) are recorded as an explicit operation trace.
`Date.now()` and the wall-clock date are passed in as parameters
(`now : Nat`, `today : String`).

JavaScript numbers are embedded as `JsNum` (an integer or NaN) because the
eviction path of `getTodayItem` evaluates `catalog.wordCount -= oldestSet.wordCount`
where `oldestSet` is a plain id string, so the right operand is `undefined`
and the result is NaN.
-/

/-- A JavaScript number as this module produces them: an integer or NaN. -/
inductive JsNum where
  | int : Int → JsNum
  | nan : JsNum
deriving DecidableEq

/-- Addition of two JS numbers: NaN is absorbing. -/
def JsNum.add : JsNum → JsNum → JsNum
  | JsNum.int a, JsNum.int b => JsNum.int (a + b)
  | _, _ => JsNum.nan

/-- Adding an integer literal to a JS number (`x += 1`). -/
def JsNum.addInt : JsNum → Int → JsNum
  | JsNum.int a, b => JsNum.int (a + b)
  | JsNum.nan, _ => JsNum.nan

/-- Subtracting `undefined` from a JS number (`x -= s.wordCount` where `s`
is a string, so `s.wordCount` is `undefined`): the result is always NaN. -/
def JsNum.subUndef : JsNum → JsNum := fun _ => JsNum.nan

/-- The comparison `x >= b` on a JS number: false when `x` is NaN. -/
def JsNum.geInt : JsNum → Int → Bool
  | JsNum.int a, b => b ≤ a
  | JsNum.nan, _ => false

/-- One day's word list: `{ date, data }`, words most-recently-touched first. -/
structure Record where
  date : String
  data : List String
deriving DecidableEq

/-- A capped bucket of daily records: `{ id, data, wordCount }`. -/
structure RecordSet where
  id : String
  data : List Record
  wordCount : JsNum
deriving DecidableEq

/-- The per-namespace catalog: `{ data, wordCount, timestamp }`, where `data`
is the list of record-set ids, most recent first.  `timestamp` is absent
(`none`) until the first `appendAndSave` writes it. -/
structure RecordCat where
  data : List String
  wordCount : JsNum
  timestamp : Option Nat
deriving DecidableEq

/-- A value stored in the key-value backend: a catalog or a record set. -/
inductive StoredVal where
  | cat : RecordCat → StoredVal
  | set : RecordSet → StoredVal
deriving DecidableEq

/-- The key-value backend state: a partial map from string keys. -/
def Store : Type := String → Option StoredVal

/-- A mutating storage call issued by the record module. -/
inductive StoreOp where
  /-- The call `storage.local.set(obj)`: one combined write of several key/value pairs. -/
  | setOp : List (String × StoredVal) → StoreOp
  /-- The call `storage.local.remove(keys)` with a list of string keys. -/
  | removeOp : List String → StoreOp
  /-- Modelled from the spec: `storage.local.remove` of the missing storage
  collaborator (`src/helpers/chrome-api`) invoked with an `undefined` key
  (the source passes `oldestSet.id` where `oldestSet` is a string); the
  spec defines removal only for real keys, so no key is removed. -/
  | removeUndefOp : StoreOp
deriving DecidableEq

/-- Write one key. -/
def Store.set1 (st : Store) (k : String) (v : StoredVal) : Store :=
  fun q => if q = k then some v else st q

/-- Apply a combined write; later pairs win, as in a JS object literal. -/
def Store.setPairs (st : Store) (pairs : List (String × StoredVal)) : Store :=
  pairs.foldl (fun s p => s.set1 p.1 p.2) st

/-- Remove a list of keys. -/
def Store.removeKeys (st : Store) (keys : List String) : Store :=
  fun q => if keys.contains q then none else st q

/-- Apply one storage operation to the backend state. -/
def Store.applyOp (st : Store) : StoreOp → Store
  | StoreOp.setOp pairs => st.setPairs pairs
  | StoreOp.removeOp keys => st.removeKeys keys
  | StoreOp.removeUndefOp => st

/-- Apply a trace of storage operations in order. -/
def applyOps (st : Store) (ops : List StoreOp) : Store :=
  ops.foldl Store.applyOp st

/-- Read a catalog: `res[catName]`, used where the code expects a catalog. -/
def Store.getCat (st : Store) (k : String) : Option RecordCat :=
  match st k with
  | some (StoredVal.cat c) => some c
  | _ => none

/-- Read a record set: `res[id]`, used where the code expects a set. -/
def Store.getSet (st : Store) (id : String) : Option RecordSet :=
  match st id with
  | some (StoredVal.set s) => some s
  | _ => none

/-- The fresh record set `{ id: Date.now().toString(), data: [], wordCount: 0 }`. -/
def freshRecordSet (now : Nat) : RecordSet :=
  { id := toString now, data := [], wordCount := JsNum.int 0 }

/-- The `wordCount` read off `allSets[id]`: NaN stands for the `undefined`
read when the set is missing (the source only reads it for resolved ids). -/
def setWordCount (st : Store) (id : String) : JsNum :=
  match st.getSet id with
  | some s => s.wordCount
  | none => JsNum.nan

/-- The filter `catalog.data.filter(id => allSets[id])` of the self-heal
path: the ids whose record set resolves in storage. -/
def resolvedIds (st : Store) (ids : List String) : List String :=
  ids.filter (fun i => (st.getSet i).isSome)

/-- The recomputation `reduce((sum, id) => allSets[id].wordCount + sum, 0)`
of the self-heal path, as the source's left fold. -/
def healWordCount (st : Store) (ids : List String) : JsNum :=
  ids.foldl (fun sum i => JsNum.add (setWordCount st i) sum) (JsNum.int 0)

/-- The mathematical sum of the word counts of the sets stored under `ids`:
the right fold of `JsNum.add` over the mapped word counts. -/
def sumRefWordCounts (st : Store) (ids : List String) : JsNum :=
  (ids.map (setWordCount st)).foldr JsNum.add (JsNum.int 0)

/-- The guard `!catalog || catalog.data.length <= 0` of `getLatestSet`. -/
def isEmptyCatalog : Option RecordCat → Bool
  | none => true
  | some c => c.data.isEmpty

/-- Result of `getLatestSet`: `{catalog, latestSet}` plus the trace of
mutating storage calls it issued (always empty: it only reads). -/
structure LatestRes where
  catalog : RecordCat
  latestSet : RecordSet
  ops : List StoreOp
deriving DecidableEq

/-- Embedding of `getLatestSet(catalog)` (lines 132–169): synthesize a fresh catalog and
set when the catalog is absent or empty; otherwise resolve the first id;
on a dangling first id, self-heal by filtering the id list to the ids that
resolve, recomputing `wordCount` by the source's left fold
`reduce((sum, id) => allSets[id].wordCount + sum, 0)`, and prepending a
fresh set's id. -/
def getLatestSet (st : Store) (now : Nat) (catalog? : Option RecordCat) : LatestRes :=
  match catalog? with
  | none =>
      let latestSet := freshRecordSet now
      { catalog := { data := [latestSet.id], wordCount := JsNum.int 0, timestamp := none },
        latestSet := latestSet, ops := [] }
  | some catalog =>
      match catalog.data with
      | [] =>
          let latestSet := freshRecordSet now
          { catalog := { data := [latestSet.id], wordCount := JsNum.int 0, timestamp := none },
            latestSet := latestSet, ops := [] }
      | id :: _ =>
          match st.getSet id with
          | some latestSet => { catalog := catalog, latestSet := latestSet, ops := [] }
          | none =>
              let latestSet := freshRecordSet now
              let kept := resolvedIds st catalog.data
              { catalog := { data := latestSet.id :: kept, wordCount := healWordCount st kept,
                             timestamp := catalog.timestamp },
                latestSet := latestSet, ops := [] }

/-- Result of `getTodayItem`: `{catalog, latestSet, todayItem}` plus the
trace of mutating storage calls it issued.  `todayItem` aliases
`latestSet.data[0]` in the source; here it is returned as the head of
`latestSet.data`. -/
structure TodayRes where
  catalog : RecordCat
  latestSet : RecordSet
  todayItem : Record
  ops : List StoreOp
deriving DecidableEq

/-- The new-date branch of `getTodayItem` (lines 180–203): build an empty
record for today; if `latestSet.wordCount >= 500`, open a fresh set and
prepend its id; if the catalog then holds more than 20 ids, pop the oldest
id, evaluate `catalog.wordCount -= oldestSet.wordCount` (NaN, since the
popped value is a string) and call `storage.local.remove(oldestSet.id)`
(an `undefined` key, since the popped value is a string); finally unshift
the today record onto the (possibly fresh) set. -/
def getTodayItemNewDate (today : String) (now : Nat) (catalog : RecordCat)
    (latestSet : RecordSet) : TodayRes :=
  let todayItem : Record := { date := today, data := [] }
  if latestSet.wordCount.geInt 500 then
    let newSet := freshRecordSet now
    let catalog1 : RecordCat := { catalog with data := newSet.id :: catalog.data }
    if catalog1.data.length > 20 then
      let catalog2 : RecordCat :=
        { catalog1 with
          data := catalog1.data.dropLast,
          wordCount := catalog1.wordCount.subUndef }
      { catalog := catalog2,
        latestSet := { newSet with data := todayItem :: newSet.data },
        todayItem := todayItem, ops := [StoreOp.removeUndefOp] }
    else
      { catalog := catalog1,
        latestSet := { newSet with data := todayItem :: newSet.data },
        todayItem := todayItem, ops := [] }
  else
    { catalog := catalog,
      latestSet := { latestSet with data := todayItem :: latestSet.data },
      todayItem := todayItem, ops := [] }

/-- Embedding of `getTodayItem({catalog, latestSet})` (lines 174–204): if the latest
set's first record is dated today, return it unchanged; otherwise take the
new-date branch. -/
def getTodayItem (today : String) (now : Nat) (catalog : RecordCat)
    (latestSet : RecordSet) : TodayRes :=
  match latestSet.data with
  | first :: _ =>
      if first.date = today then
        { catalog := catalog, latestSet := latestSet, todayItem := first, ops := [] }
      else getTodayItemNewDate today now catalog latestSet
  | [] => getTodayItemNewDate today now catalog latestSet

/-- JS `Array.prototype.indexOf` on a word list, as the index option:
`none` models the return value `-1`. -/
def jsIndexOf : List String → String → Option Nat
  | [], _ => none
  | y :: rest, x =>
      if y = x then some 0
      else match jsIndexOf rest x with
           | none => none
           | some i => some (i + 1)

/-- Result of `appendAndSave`: the mutated catalog and set plus the trace
of mutating storage calls it issued. -/
structure SaveRes where
  catalog : RecordCat
  latestSet : RecordSet
  ops : List StoreOp
deriving DecidableEq

/-- Embedding of `appendAndSave({catalog, latestSet, todayItem}, text, catName)`
(lines 206–223): `indexOf` the word in today's record; when absent,
increment both word counts; when present, splice out the old occurrence;
unshift the word; stamp the catalog; issue one combined write of
`{ [catName]: catalog, [latestSet.id]: latestSet }`.  The mutation of
`todayItem` is reflected into `latestSet` because `todayItem` is
`latestSet.data[0]`. -/
def appendAndSave (catName : String) (now : Nat) (text : String) (catalog : RecordCat)
    (latestSet : RecordSet) (todayItem : Record) : SaveRes :=
  let idx? := jsIndexOf todayItem.data text
  let isNew := idx?.isNone
  let spliced := match idx? with
    | none => todayItem.data
    | some i => todayItem.data.eraseIdx i
  let latestWc := if isNew then latestSet.wordCount.addInt 1 else latestSet.wordCount
  let catWc := if isNew then catalog.wordCount.addInt 1 else catalog.wordCount
  let todayItem1 : Record := { todayItem with data := text :: spliced }
  let latestSet1 : RecordSet :=
    { latestSet with
      wordCount := latestWc,
      data := todayItem1 :: latestSet.data.tail }
  let catalog1 : RecordCat := { catalog with wordCount := catWc, timestamp := some now }
  { catalog := catalog1, latestSet := latestSet1,
    ops := [StoreOp.setOp [(catName, StoredVal.cat catalog1),
                           (latestSet1.id, StoredVal.set latestSet1)]] }

/-- The first stage of `addRecord`: `storage.local.get(catName)` then
`.then(res => getLatestSet(res[catName]))`. -/
def addRecordStage1 (st : Store) (now : Nat) (area : String) : LatestRes :=
  getLatestSet st now (st.getCat (area ++ "Cat"))

/-- The second stage of `addRecord`: `.then(getTodayItem)`. -/
def addRecordStage2 (st : Store) (today : String) (now : Nat) (area : String) : TodayRes :=
  getTodayItem today now (addRecordStage1 st now area).catalog
    (addRecordStage1 st now area).latestSet

/-- The third stage of `addRecord`:
`.then(res => appendAndSave(res, text, catName))`. -/
def addRecordStage3 (st : Store) (today : String) (now : Nat) (area text : String) : SaveRes :=
  appendAndSave (area ++ "Cat") now text (addRecordStage2 st today now area).catalog
    (addRecordStage2 st today now area).latestSet (addRecordStage2 st today now area).todayItem

/-- Embedding of `addRecord(area, text)` (lines 40–46): the full write pipeline.  Returns
the backend state after the issued operations are applied, together with
the trace of mutating storage calls. -/
def addRecord (st : Store) (today : String) (now : Nat) (area text : String) :
    Store × List StoreOp :=
  let ops := (addRecordStage1 st now area).ops ++ (addRecordStage2 st today now area).ops
    ++ (addRecordStage3 st today now area text).ops
  (applyOps st ops, ops)

/-- Embedding of `clearRecords(area)` (lines 51–61): if the catalog exists, remove the
keys it references; otherwise do nothing. -/
def clearRecords (st : Store) (area : String) : Store × List StoreOp :=
  match st.getCat (area ++ "Cat") with
  | some catalog => (st.removeKeys catalog.data, [StoreOp.removeOp catalog.data])
  | none => (st, [])

/-- Embedding of `getWordCount(area)` (lines 120–127): the catalog's `wordCount`, or 0. -/
def getWordCount (st : Store) (area : String) : JsNum :=
  match st.getCat (area ++ "Cat") with
  | some catalog => catalog.wordCount
  | none => JsNum.int 0

/-- The JS coercion of a record array to a number, as forced by the loop
bound `j < items` of `getAllWords`: an empty array converts to 0 (via the
empty string) and a non-empty array of objects converts to NaN (`none`). -/
def jsArrayToNumber : List Record → Option Int
  | [] => some 0
  | _ :: _ => none

/-- The loop guard `j < items` of `getAllWords`: false when the array
coerces to NaN, else an integer comparison. -/
def jsLtArray (j : Nat) (items : List Record) : Bool :=
  match jsArrayToNumber items with
  | some v => (j : Int) < v
  | none => false

/-- The number of iterations of `for (let j = 0; j < items; j++)`:
the count of consecutive `j` from 0 satisfying the guard. -/
def jsLoopCount (items : List Record) : Nat :=
  match jsArrayToNumber items with
  | some v => v.toNat
  | none => 0

/-- The inner loop of `getAllWords` over one set's record array:
`result = result.concat(items[j].data)` for each iterated `j`. -/
def getAllWordsInner (items : List Record) : List String :=
  (List.range (jsLoopCount items)).foldl
    (fun acc j => acc ++ ((items.getD j { date := "", data := [] }).data)) []

/-- The outer loop of `getAllWords` over the catalog's set ids: the read
`allSets[setIds[i]].data` throws a TypeError (`none`) when the set is
missing from storage. -/
def getAllWordsLoop (st : Store) : List String → Option (List String)
  | [] => some []
  | id :: rest =>
      match st.getSet id with
      | none => none
      | some s =>
          match getAllWordsLoop st rest with
          | none => none
          | some r => some (getAllWordsInner s.data ++ r)

/-- Embedding of `getAllWords(area)` (lines 75–94): `none` models a rejected promise
(a thrown TypeError on a dangling set reference). -/
def getAllWords (st : Store) (area : String) : Option (List String) :=
  match st.getCat (area ++ "Cat") with
  | none => some []
  | some catalog => getAllWordsLoop st catalog.data

/-- Embedding of `getToday()` (lines 225–231): zero-padded `MMDDYYYY` from the local
wall-clock date components. -/
def getToday (month day year : Nat) : String :=
  (if month < 10 then "0" else "") ++ toString month ++
    (if day < 10 then "0" else "") ++ toString day ++ toString year

/-- Whether a storage operation is a combined write (`storage.local.set`). -/
def StoreOp.isSet : StoreOp → Bool
  | StoreOp.setOp _ => true
  | _ => false

/-- The backend state of a namespace nobody has written to. -/
def emptyStore : Store := fun _ => none

/-- The id list of the catalog stored under `k`, when one is stored. -/
def catData (st : Store) (k : String) : Option (List String) :=
  (st.getCat k).map RecordCat.data

/-- The word count of the catalog stored under `k`, when one is stored. -/
def catWC (st : Store) (k : String) : Option JsNum :=
  (st.getCat k).map RecordCat.wordCount

/-- The record list of the set stored under `id`, when one is stored. -/
def setData (st : Store) (id : String) : Option (List Record) :=
  (st.getSet id).map RecordSet.data

/-- The word count of the set stored under `id`, when one is stored. -/
def setWC (st : Store) (id : String) : Option JsNum :=
  (st.getSet id).map RecordSet.wordCount

/-- The aggregate-count invariant of the data model: the catalog stored
under `catName`, when present, has `wordCount` equal to the sum of the
word counts of the sets its id list references. -/
def catalogInvariant (st : Store) (catName : String) : Bool :=
  match st.getCat catName with
  | some c => decide (c.wordCount = sumRefWordCounts st c.data)
  | none => true

/-- Scenario: the ids of a catalog at the 20-set capacity. -/
def evIds : List String := (List.range 20).map (fun i => "s" ++ toString i)

/-- Scenario: the record set stored under `"s" ++ toString i`; the latest
set (index 0) is at the 500-word rollover threshold. -/
def evSet (i : Nat) : RecordSet :=
  { id := "s" ++ toString i,
    data := [{ date := "01012024", data := ["w" ++ toString i] }],
    wordCount := if i = 0 then JsNum.int 500 else JsNum.int 1 }

/-- Scenario: a catalog at capacity whose word count is the exact sum
`500 + 19 * 1` of its sets' word counts. -/
def evCat : RecordCat := { data := evIds, wordCount := JsNum.int 519, timestamp := none }

/-- Scenario: the backend holding `evCat` under `"aCat"` and the twenty
sets under their ids. -/
def evStore : Store := fun k =>
  if k = "aCat" then some (StoredVal.cat evCat)
  else match (List.range 20).find? (fun i => ("s" ++ toString i) == k) with
       | some i => some (StoredVal.set (evSet i))
       | none => none

/-- Scenario: a single-set catalog at the rollover threshold. -/
def c4Cat : RecordCat := { data := ["s0"], wordCount := JsNum.int 500, timestamp := none }

/-- Scenario: a set at the rollover threshold holding one record dated
`"02012024"`. -/
def c4Set : RecordSet :=
  { id := "s0", data := [{ date := "02012024", data := ["old"] }], wordCount := JsNum.int 500 }

/-- Scenario: the backend holding `c4Cat` under `"aCat"` and `c4Set` under
`"s0"`. -/
def c4Store : Store := fun k =>
  if k = "aCat" then some (StoredVal.cat c4Cat)
  else if k = "s0" then some (StoredVal.set c4Set)
  else none

/-- Scenario: a backend holding two sets, `"s1"` and `"s2"`. -/
def c5Store : Store := fun k =>
  if k = "s1" then some (StoredVal.set { id := "s1", data := [], wordCount := JsNum.int 10 })
  else if k = "s2" then some (StoredVal.set { id := "s2", data := [], wordCount := JsNum.int 32 })
  else none

/-- Scenario: a catalog referencing three set ids whose first, `"m"`, is
missing from `c5Store`. -/
def c5Cat : RecordCat := { data := ["m", "s1", "s2"], wordCount := JsNum.int 50, timestamp := some 4 }

/-- Scenario: a catalog whose only referenced set id is dangling. -/
def stDangling : Store := fun k =>
  if k = "aCat" then
    some (StoredVal.cat { data := ["gone"], wordCount := JsNum.int 3, timestamp := none })
  else none

/-- Scenario: a namespace with a catalog referencing two stored sets. -/
def c10Cat : RecordCat := { data := ["r1", "r2"], wordCount := JsNum.int 7, timestamp := some 1 }

/-- Scenario: the backend holding `c10Cat` under `"aCat"` and its sets. -/
def c10Store : Store := fun k =>
  if k = "aCat" then some (StoredVal.cat c10Cat)
  else if k = "r1" then some (StoredVal.set { id := "r1", data := [], wordCount := JsNum.int 3 })
  else if k = "r2" then some (StoredVal.set { id := "r2", data := [], wordCount := JsNum.int 4 })
  else none

/-- C1: round-trip fails on the code. After `addRecord` of the word `"x"`
into a fresh namespace, `getAllWords` returns the empty sequence instead of
a sequence starting with `"x"`, because the inner loop bound of
`getAllWords` compares the index against the record array itself. -/
theorem c1_roundtrip_returns_empty :
    getAllWords (addRecord emptyStore "02012024" 1 "a" "x").1 "a" = some []
    ∧ setData (addRecord emptyStore "02012024" 1 "a" "x").1 "1"
        = some [{ date := "02012024", data := ["x"] }] := by
  constructor <;> rfl

/-- C6: `getAllWords` rejects (throws a TypeError) when the catalog
references a set id missing from storage, because `allSets[setIds[i]].data`
is read without a guard. -/
theorem c6_getAllWords_throws_on_dangling :
    getAllWords stDangling "a" = none := by rfl

/-- C9 counterexample: the catalog synthesized for an absent catalog does
not have an empty id list; it holds the fresh set's id. -/
theorem c9_fresh_catalog_data_not_empty :
    (getLatestSet emptyStore 0 none).catalog.data ≠ [] := by decide

/-- C2: capacity eviction fails on the code. Appending to `evStore`
(20 sets, latest at the 500-word threshold, new day) pops the oldest id
`"s19"` from the catalog, yet the storage key `"s19"` still holds the
evicted set afterwards, because the source calls
`storage.local.remove(oldestSet.id)` where `oldestSet` is the popped id
string, so the removed key is `undefined`. -/
theorem c2_evicted_key_remains :
    catData (addRecord evStore "02012024" 777 "a" "neww").1 "aCat"
        = some ("777" :: evIds.dropLast)
    ∧ "s19" ∉ ("777" :: evIds.dropLast)
    ∧ ((addRecord evStore "02012024" 777 "a" "neww").1) "s19" = some (StoredVal.set (evSet 19))
    := by
  refine ⟨by decide, by decide, by decide⟩

/-- C3: the aggregate-count invariant is not preserved by the eviction
write. It holds in `evStore`, and fails after the append that evicts,
because `catalog.wordCount -= oldestSet.wordCount` subtracts the
`wordCount` property of an id string (undefined), leaving NaN. -/
theorem c3_invariant_broken_by_eviction :
    catalogInvariant evStore "aCat" = true
    ∧ catalogInvariant (addRecord evStore "02012024" 777 "a" "neww").1 "aCat" = false
    ∧ catWC (addRecord evStore "02012024" 777 "a" "neww").1 "aCat" = some JsNum.nan := by
  refine ⟨by decide, by decide, by decide⟩

/-- C4 counterexample: a set at the rollover threshold whose first record
is dated today. The next append does not allocate a new set: the catalog's
id list is unchanged, no set is stored under the fresh id `"9"`, and the
existing set's word count grows to 501. -/
theorem c4_no_rollover_when_today_exists :
    setWC c4Store "s0" = some (JsNum.int 500)
    ∧ catData (addRecord c4Store "02012024" 9 "a" "neww").1 "aCat" = some ["s0"]
    ∧ (addRecord c4Store "02012024" 9 "a" "neww").1.getSet "9" = none
    ∧ setWC (addRecord c4Store "02012024" 9 "a" "neww").1 "s0" = some (JsNum.int 501) := by
  refine ⟨by decide, by decide, by decide, by decide⟩

theorem JsNum.add_comm (a b : JsNum) : JsNum.add a b = JsNum.add b a := by
  cases a <;> cases b <;> simp [JsNum.add, Int.add_comm]

theorem JsNum.add_assoc (a b c : JsNum) :
    JsNum.add (JsNum.add a b) c = JsNum.add a (JsNum.add b c) := by
  cases a <;> cases b <;> cases c <;> simp [JsNum.add, Int.add_assoc]

theorem JsNum.add_int_zero (a : JsNum) : JsNum.add a (JsNum.int 0) = a := by
  cases a <;> simp [JsNum.add]

/-- The source's left fold of the self-heal recomputation equals the
mathematical sum of the referenced word counts. -/
theorem healWordCount_eq_sum (st : Store) (l : List String) :
    healWordCount st l = sumRefWordCounts st l := by
  have key : ∀ (l : List String) (a : JsNum),
      l.foldl (fun sum i => JsNum.add (setWordCount st i) sum) a
        = JsNum.add (sumRefWordCounts st l) a := by
    intro l
    induction l with
    | nil =>
        intro a
        cases a <;> simp [sumRefWordCounts, JsNum.add]
    | cons x xs ih =>
        intro a
        simp only [List.foldl_cons, sumRefWordCounts, List.map_cons, List.foldr_cons]
        rw [ih]
        rw [show (List.foldr JsNum.add (JsNum.int 0) (xs.map (setWordCount st)))
              = sumRefWordCounts st xs from rfl]
        rw [JsNum.add_assoc, JsNum.add_comm (sumRefWordCounts st xs)
              (JsNum.add (setWordCount st x) a)]
        rw [JsNum.add_assoc, JsNum.add_comm a (sumRefWordCounts st xs), ← JsNum.add_assoc]
  rw [healWordCount, key, JsNum.add_int_zero]

/-- C5: self-heal. When the catalog's first referenced set id is missing
from storage, `getLatestSet` returns the repaired catalog: the id list
filtered down to the ids that resolved with the fresh empty set's id
prepended, the word count recomputed as the exact sum of the resolved
sets' word counts, the timestamp kept; no write is issued. -/
theorem c5_self_heal (st : Store) (now : Nat) (catalog : RecordCat)
    (id0 : String) (rest : List String)
    (hdata : catalog.data = id0 :: rest)
    (hmiss : st.getSet id0 = none) :
    getLatestSet st now (some catalog)
      = { catalog := { data := toString now :: resolvedIds st catalog.data,
                       wordCount := sumRefWordCounts st (resolvedIds st catalog.data),
                       timestamp := catalog.timestamp },
          latestSet := freshRecordSet now, ops := [] } := by
  cases catalog with
  | mk cd cw ct =>
      dsimp only at hdata
      subst hdata
      simp only [getLatestSet, hmiss, freshRecordSet, healWordCount_eq_sum]

/-- Witness for C5 at the spec's own example: three referenced ids whose
first is missing; the repaired word count is 10 + 32. -/
theorem c5_self_heal_witness :
    c5Cat.data = "m" :: ["s1", "s2"]
    ∧ c5Store.getSet "m" = none
    ∧ getLatestSet c5Store 42 (some c5Cat)
        = { catalog := { data := toString 42 :: resolvedIds c5Store c5Cat.data,
                         wordCount := sumRefWordCounts c5Store (resolvedIds c5Store c5Cat.data),
                         timestamp := c5Cat.timestamp },
            latestSet := freshRecordSet 42, ops := [] } :=
  ⟨rfl, rfl, c5_self_heal c5Store 42 c5Cat "m" ["s1", "s2"] rfl rfl⟩

/-- C9 (amended): when the catalog is absent or its id list is empty,
`getLatestSet` synthesizes a fresh catalog whose id list holds exactly the
fresh set's id with word count 0 and no timestamp, plus the fresh empty
set, and issues no storage write. -/
theorem c9_fresh_synthesis (st : Store) (now : Nat) (catalog? : Option RecordCat)
    (h : isEmptyCatalog catalog? = true) :
    getLatestSet st now catalog?
      = { catalog := { data := [toString now], wordCount := JsNum.int 0, timestamp := none },
          latestSet := freshRecordSet now, ops := [] } := by
  cases catalog? with
  | none => rfl
  | some c =>
      cases c with
      | mk cd cw ct =>
          cases cd with
          | nil => rfl
          | cons x xs => simp [isEmptyCatalog] at h

/-- Witness for C9 at an absent catalog. -/
theorem c9_fresh_synthesis_witness :
    isEmptyCatalog (none : Option RecordCat) = true
    ∧ getLatestSet emptyStore 3 none
        = { catalog := { data := [toString 3], wordCount := JsNum.int 0, timestamp := none },
            latestSet := freshRecordSet 3, ops := [] } :=
  ⟨rfl, c9_fresh_synthesis emptyStore 3 none rfl⟩

/-- C10: frame property of `clearRecords`. With a catalog present whose id
list does not contain the catalog key itself, `clearRecords` removes
exactly the referenced set keys (its one storage operation is the removal
of that id list), and `getWordCount` afterwards returns the value it
returned before. -/
theorem c10_clear_frame (st : Store) (area : String) (catalog : RecordCat)
    (hcat : st.getCat (area ++ "Cat") = some catalog)
    (hnotref : catalog.data.contains (area ++ "Cat") = false) :
    (clearRecords st area).1 = st.removeKeys catalog.data
    ∧ (clearRecords st area).2 = [StoreOp.removeOp catalog.data]
    ∧ getWordCount (clearRecords st area).1 area = getWordCount st area := by
  have h1 : clearRecords st area = (st.removeKeys catalog.data, [StoreOp.removeOp catalog.data]) := by
    unfold clearRecords
    rw [hcat]
  have h2 : (st.removeKeys catalog.data) (area ++ "Cat") = st (area ++ "Cat") := by
    unfold Store.removeKeys
    rw [hnotref]
    simp
  refine ⟨by rw [h1], by rw [h1], ?_⟩
  rw [h1]
  dsimp only
  unfold getWordCount Store.getCat
  rw [h2]

/-- Witness for C10 at a two-set namespace. -/
theorem c10_clear_frame_witness :
    c10Store.getCat ("a" ++ "Cat") = some c10Cat
    ∧ c10Cat.data.contains ("a" ++ "Cat") = false
    ∧ ((clearRecords c10Store "a").1 = c10Store.removeKeys c10Cat.data
       ∧ (clearRecords c10Store "a").2 = [StoreOp.removeOp c10Cat.data]
       ∧ getWordCount (clearRecords c10Store "a").1 "a" = getWordCount c10Store "a") :=
  ⟨by decide, by decide, c10_clear_frame c10Store "a" c10Cat (by decide) (by decide)⟩

/-- Lemma: `getLatestSet` only reads: it issues no storage operation. -/
theorem getLatestSet_no_ops (st : Store) (now : Nat) (catalog? : Option RecordCat) :
    (getLatestSet st now catalog?).ops = [] := by
  cases catalog? with
  | none => rfl
  | some c =>
      cases c with
      | mk cd cw ct =>
          cases cd with
          | nil => rfl
          | cons x xs =>
              cases h : st.getSet x with
              | none => simp [getLatestSet, h]
              | some s => simp [getLatestSet, h]

/-- Lemma: `getTodayItem` issues no combined write (its only possible operation is
the eviction-path remove). -/
theorem getTodayItem_no_writes (today : String) (now : Nat) (catalog : RecordCat)
    (latestSet : RecordSet) :
    ((getTodayItem today now catalog latestSet).ops).filter StoreOp.isSet = [] := by
  unfold getTodayItem getTodayItemNewDate
  dsimp only
  repeat' split
  all_goals rfl

/-- Lemma: `appendAndSave` issues exactly one operation: the combined write of the
mutated catalog under `catName` and the mutated set under its own id. -/
theorem appendAndSave_ops_eq (catName : String) (now : Nat) (text : String)
    (catalog : RecordCat) (latestSet : RecordSet) (todayItem : Record) :
    (appendAndSave catName now text catalog latestSet todayItem).ops
      = [StoreOp.setOp
           [(catName,
             StoredVal.cat (appendAndSave catName now text catalog latestSet todayItem).catalog),
            ((appendAndSave catName now text catalog latestSet todayItem).latestSet.id,
             StoredVal.set (appendAndSave catName now text catalog latestSet todayItem).latestSet)]]
    := rfl

/-- C8: atomic persist. Every `addRecord` issues exactly one combined
write, and it carries both the catalog under the catalog key and the
latest record set under its own id. -/
theorem c8_single_combined_write (st : Store) (today : String) (now : Nat) (area text : String) :
    ∃ c s, ((addRecord st today now area text).2).filter StoreOp.isSet
        = [StoreOp.setOp [(area ++ "Cat", StoredVal.cat c), (s.id, StoredVal.set s)]] := by
  refine ⟨(addRecordStage3 st today now area text).catalog,
          (addRecordStage3 st today now area text).latestSet, ?_⟩
  have e0 : (addRecord st today now area text).2
      = (addRecordStage1 st now area).ops ++ (addRecordStage2 st today now area).ops
        ++ (addRecordStage3 st today now area text).ops := rfl
  have e1 : (addRecordStage1 st now area).ops = [] :=
    getLatestSet_no_ops st now (st.getCat (area ++ "Cat"))
  have e2 : ((addRecordStage2 st today now area).ops).filter StoreOp.isSet = [] :=
    getTodayItem_no_writes today now (addRecordStage1 st now area).catalog
      (addRecordStage1 st now area).latestSet
  have e3 : (addRecordStage3 st today now area text).ops
      = [StoreOp.setOp
           [(area ++ "Cat", StoredVal.cat (addRecordStage3 st today now area text).catalog),
            ((addRecordStage3 st today now area text).latestSet.id,
             StoredVal.set (addRecordStage3 st today now area text).latestSet)]] :=
    appendAndSave_ops_eq (area ++ "Cat") now text (addRecordStage2 st today now area).catalog
      (addRecordStage2 st today now area).latestSet (addRecordStage2 st today now area).todayItem
  rw [e0, e1, List.filter_append, List.filter_append, e2, e3]
  simp [StoreOp.isSet]

theorem getCat_eq (st : Store) (k : String) (c : RecordCat)
    (h : st k = some (StoredVal.cat c)) : st.getCat k = some c := by
  unfold Store.getCat
  rw [h]

theorem getSet_eq (st : Store) (k : String) (s : RecordSet)
    (h : st k = some (StoredVal.set s)) : st.getSet k = some s := by
  unfold Store.getSet
  rw [h]

theorem set1_same (st : Store) (k : String) (v : StoredVal) : (st.set1 k v) k = some v := by
  simp [Store.set1]

theorem set1_other (st : Store) (k : String) (v : StoredVal) (q : String) (h : q ≠ k) :
    (st.set1 k v) q = st q := by
  simp [Store.set1, h]

/-- The fresh-namespace branch of `getLatestSet`. -/
theorem getLatestSet_empty (st : Store) (now : Nat) (catalog? : Option RecordCat)
    (h : isEmptyCatalog catalog? = true) :
    getLatestSet st now catalog?
      = { catalog := { data := [toString now], wordCount := JsNum.int 0, timestamp := none },
          latestSet := freshRecordSet now, ops := [] } := by
  cases catalog? with
  | none => rfl
  | some c =>
      cases c with
      | mk cd cw ct =>
          cases cd with
          | nil => rfl
          | cons x xs => simp [isEmptyCatalog] at h

/-- The resolved branch of `getLatestSet`: the first id resolves and the
pair is returned unchanged. -/
theorem getLatestSet_resolved (st : Store) (now : Nat) (c : RecordCat) (id0 : String)
    (rest : List String) (s : RecordSet)
    (hdata : c.data = id0 :: rest) (hres : st.getSet id0 = some s) :
    getLatestSet st now (some c) = { catalog := c, latestSet := s, ops := [] } := by
  cases c with
  | mk cd cw ct =>
      dsimp only at hdata
      subst hdata
      simp only [getLatestSet, hres]

/-- The no-rotation branch of `getTodayItem`: the latest set's first record
is dated today. -/
theorem getTodayItem_same_day (today : String) (now : Nat) (c : RecordCat) (s : RecordSet)
    (r : Record) (rs : List Record) (hdata : s.data = r :: rs) (hr : r.date = today) :
    getTodayItem today now c s = { catalog := c, latestSet := s, todayItem := r, ops := [] } := by
  cases s with
  | mk si sd sw =>
      dsimp only at hdata
      subst hdata
      simp only [getTodayItem]
      rw [if_pos hr]

/-- The new-record branch of `getTodayItem` on a set below the rollover
threshold: a fresh today record is prepended to the same set. -/
theorem getTodayItem_new_record (today : String) (now : Nat) (c : RecordCat) (s : RecordSet)
    (hday : (s.data.head?).map Record.date ≠ some today)
    (hge : s.wordCount.geInt 500 = false) :
    getTodayItem today now c s
      = { catalog := c,
          latestSet := { s with data := { date := today, data := [] } :: s.data },
          todayItem := { date := today, data := [] }, ops := [] } := by
  cases s with
  | mk si sd sw =>
      dsimp only at hge ⊢
      cases sd with
      | nil =>
          simp only [getTodayItem, getTodayItemNewDate, hge]
          simp
      | cons r rs =>
          have hr : ¬r.date = today := by
            intro hEq
            exact hday (by simp [hEq])
          simp only [getTodayItem]
          rw [if_neg hr]
          simp only [getTodayItemNewDate, hge]
          simp

/-- The rollover branch of `getTodayItem`: a new date on a set at the
threshold opens a fresh set, prepends its id, and evicts when the catalog
exceeds 20 ids. -/
theorem getTodayItem_rollover (today : String) (now : Nat) (c : RecordCat) (s : RecordSet)
    (hday : (s.data.head?).map Record.date ≠ some today)
    (hge : s.wordCount.geInt 500 = true) :
    getTodayItem today now c s
      = if (toString now :: c.data).length > 20 then
          { catalog := { data := (toString now :: c.data).dropLast,
                         wordCount := JsNum.subUndef c.wordCount, timestamp := c.timestamp },
            latestSet := { id := toString now, data := [{ date := today, data := [] }],
                           wordCount := JsNum.int 0 },
            todayItem := { date := today, data := [] }, ops := [StoreOp.removeUndefOp] }
        else
          { catalog := { data := toString now :: c.data, wordCount := c.wordCount,
                         timestamp := c.timestamp },
            latestSet := { id := toString now, data := [{ date := today, data := [] }],
                           wordCount := JsNum.int 0 },
            todayItem := { date := today, data := [] }, ops := [] } := by
  cases c with
  | mk cd cw ct =>
      cases s with
      | mk si sd sw =>
          dsimp only at hge ⊢
          cases sd with
          | nil =>
              simp only [getTodayItem, getTodayItemNewDate, hge]
              simp [freshRecordSet]
          | cons r rs =>
              have hr : ¬r.date = today := by
                intro hEq
                exact hday (by simp [hEq])
              simp only [getTodayItem]
              rw [if_neg hr]
              simp only [getTodayItemNewDate, hge]
              simp [freshRecordSet]

/-- C4 (amended): rollover. When the latest set's word count is at least
500 and its first record is not dated today, the next append allocates a
brand-new set whose id (derived from the clock) is prepended to the
catalog's id list, and the new set ends the append holding exactly today's
record with the appended word and word count 1. -/
theorem c4_rollover_on_new_day (st : Store) (today : String) (now : Nat) (area text : String)
    (c : RecordCat) (id0 : String) (rest : List String) (s0 : RecordSet) (n : Int)
    (hcat : st (area ++ "Cat") = some (StoredVal.cat c))
    (hdata : c.data = id0 :: rest)
    (hset : st id0 = some (StoredVal.set s0))
    (hwc : s0.wordCount = JsNum.int n)
    (hn : 500 ≤ n)
    (hday : (s0.data.head?).map Record.date ≠ some today)
    (hkey : area ++ "Cat" ≠ toString now) :
    (catData (addRecord st today now area text).1 (area ++ "Cat")).map List.head?
        = some (some (toString now))
    ∧ (addRecord st today now area text).1.getSet (toString now)
        = some { id := toString now, data := [{ date := today, data := [text] }],
                 wordCount := JsNum.int 1 } := by
  have hge : s0.wordCount.geInt 500 = true := by
    rw [hwc]
    simp [JsNum.geInt, hn]
  have h1 : addRecordStage1 st now area = { catalog := c, latestSet := s0, ops := [] } := by
    unfold addRecordStage1
    rw [getCat_eq st (area ++ "Cat") c hcat]
    exact getLatestSet_resolved st now c id0 rest s0 hdata (getSet_eq st id0 s0 hset)
  have h2 : addRecordStage2 st today now area = getTodayItem today now c s0 := by
    unfold addRecordStage2
    rw [h1]
  rw [getTodayItem_rollover today now c s0 hday hge] at h2
  by_cases hlen : (toString now :: c.data).length > 20
  · rw [if_pos hlen] at h2
    have h3 : addRecordStage3 st today now area text
        = { catalog := { data := (toString now :: c.data).dropLast,
                         wordCount := JsNum.nan, timestamp := some now },
            latestSet := { id := toString now, data := [{ date := today, data := [text] }],
                           wordCount := JsNum.int 1 },
            ops := [StoreOp.setOp
                     [(area ++ "Cat",
                       StoredVal.cat { data := (toString now :: c.data).dropLast,
                                       wordCount := JsNum.nan, timestamp := some now }),
                      (toString now,
                       StoredVal.set { id := toString now,
                                       data := [{ date := today, data := [text] }],
                                       wordCount := JsNum.int 1 })]] } := by
      unfold addRecordStage3
      rw [h2]
      rfl
    have hfin : (addRecord st today now area text).1
        = (st.set1 (area ++ "Cat")
              (StoredVal.cat { data := (toString now :: c.data).dropLast,
                               wordCount := JsNum.nan, timestamp := some now })).set1
            (toString now)
            (StoredVal.set { id := toString now, data := [{ date := today, data := [text] }],
                             wordCount := JsNum.int 1 }) := by
      have e : (addRecord st today now area text).1
          = applyOps st ((addRecordStage1 st now area).ops
              ++ (addRecordStage2 st today now area).ops
              ++ (addRecordStage3 st today now area text).ops) := rfl
      rw [e, h1, h2, h3]
      rfl
    constructor
    · unfold catData
      rw [hfin, getCat_eq _ _ _ (by rw [set1_other _ _ _ _ hkey, set1_same])]
      rw [hdata]
      rfl
    · rw [hfin, getSet_eq _ _ _ (by rw [set1_same])]
  · rw [if_neg hlen] at h2
    have h3 : addRecordStage3 st today now area text
        = { catalog := { data := toString now :: c.data,
                         wordCount := JsNum.addInt c.wordCount 1, timestamp := some now },
            latestSet := { id := toString now, data := [{ date := today, data := [text] }],
                           wordCount := JsNum.int 1 },
            ops := [StoreOp.setOp
                     [(area ++ "Cat",
                       StoredVal.cat { data := toString now :: c.data,
                                       wordCount := JsNum.addInt c.wordCount 1,
                                       timestamp := some now }),
                      (toString now,
                       StoredVal.set { id := toString now,
                                       data := [{ date := today, data := [text] }],
                                       wordCount := JsNum.int 1 })]] } := by
      unfold addRecordStage3
      rw [h2]
      rfl
    have hfin : (addRecord st today now area text).1
        = (st.set1 (area ++ "Cat")
              (StoredVal.cat { data := toString now :: c.data,
                               wordCount := JsNum.addInt c.wordCount 1,
                               timestamp := some now })).set1
            (toString now)
            (StoredVal.set { id := toString now, data := [{ date := today, data := [text] }],
                             wordCount := JsNum.int 1 }) := by
      have e : (addRecord st today now area text).1
          = applyOps st ((addRecordStage1 st now area).ops
              ++ (addRecordStage2 st today now area).ops
              ++ (addRecordStage3 st today now area text).ops) := rfl
      rw [e, h1, h2, h3]
      rfl
    constructor
    · unfold catData
      rw [hfin, getCat_eq _ _ _ (by rw [set1_other _ _ _ _ hkey, set1_same])]
      rfl
    · rw [hfin, getSet_eq _ _ _ (by rw [set1_same])]

/-- Witness for C4: appending on a new date to `c4Store` allocates the new
set `"9"` and prepends its id. -/
theorem c4_rollover_on_new_day_witness :
    c4Store ("a" ++ "Cat") = some (StoredVal.cat c4Cat)
    ∧ c4Cat.data = "s0" :: []
    ∧ c4Store "s0" = some (StoredVal.set c4Set)
    ∧ c4Set.wordCount = JsNum.int 500
    ∧ (500 : Int) ≤ 500
    ∧ (c4Set.data.head?).map Record.date ≠ some "02022024"
    ∧ "a" ++ "Cat" ≠ toString 9
    ∧ ((catData (addRecord c4Store "02022024" 9 "a" "neww").1 ("a" ++ "Cat")).map List.head?
        = some (some (toString 9))
       ∧ (addRecord c4Store "02022024" 9 "a" "neww").1.getSet (toString 9)
        = some { id := toString 9, data := [{ date := "02022024", data := ["neww"] }],
                 wordCount := JsNum.int 1 }) :=
  ⟨by decide, by decide, by decide, by decide, by decide, by decide, by decide,
   c4_rollover_on_new_day c4Store "02022024" 9 "a" "neww" c4Cat "s0" [] c4Set 500
     (by decide) (by decide) (by decide) (by decide) (by decide) (by decide) (by decide)⟩

theorem getCat_none (st : Store) (k : String) (h : st k = none) : st.getCat k = none := by
  unfold Store.getCat
  rw [h]

/-- C7: idempotent re-append. Starting from a namespace with no catalog,
appending `w` and then appending `w` again on the same day leaves today's
record holding a single occurrence of `w` at the front, with the set and
catalog word counts incremented only once; appending the distinct word
`w2` instead increments both counts to exactly 2 and moves `w2` to the
front. -/
theorem c7_reappend_same_day (st : Store) (today : String) (now1 now2 : Nat)
    (area w w2 : String)
    (hfresh : st (area ++ "Cat") = none)
    (hkey : area ++ "Cat" ≠ toString now1)
    (hne : w2 ≠ w) :
    catWC (addRecord (addRecord st today now1 area w).1 today now2 area w).1 (area ++ "Cat")
        = some (JsNum.int 1)
    ∧ setData (addRecord (addRecord st today now1 area w).1 today now2 area w).1 (toString now1)
        = some [{ date := today, data := [w] }]
    ∧ setWC (addRecord (addRecord st today now1 area w).1 today now2 area w).1 (toString now1)
        = some (JsNum.int 1)
    ∧ catWC (addRecord (addRecord st today now1 area w).1 today now2 area w2).1 (area ++ "Cat")
        = some (JsNum.int 2)
    ∧ setData (addRecord (addRecord st today now1 area w).1 today now2 area w2).1 (toString now1)
        = some [{ date := today, data := [w2, w] }]
    ∧ setWC (addRecord (addRecord st today now1 area w).1 today now2 area w2).1 (toString now1)
        = some (JsNum.int 2) := by
  have h1 : addRecordStage1 st now1 area
      = { catalog := { data := [toString now1], wordCount := JsNum.int 0, timestamp := none },
          latestSet := freshRecordSet now1, ops := [] } := by
    unfold addRecordStage1
    rw [getCat_none st (area ++ "Cat") hfresh]
    exact getLatestSet_empty st now1 none rfl
  have h2 : addRecordStage2 st today now1 area
      = { catalog := { data := [toString now1], wordCount := JsNum.int 0, timestamp := none },
          latestSet := { id := toString now1, data := [{ date := today, data := [] }],
                         wordCount := JsNum.int 0 },
          todayItem := { date := today, data := [] }, ops := [] } := by
    unfold addRecordStage2
    rw [h1]
    exact getTodayItem_new_record today now1 _ (freshRecordSet now1) (by simp [freshRecordSet]) rfl
  have h3 : addRecordStage3 st today now1 area w
      = { catalog := { data := [toString now1], wordCount := JsNum.int 1, timestamp := some now1 },
          latestSet := { id := toString now1, data := [{ date := today, data := [w] }],
                         wordCount := JsNum.int 1 },
          ops := [StoreOp.setOp
                   [(area ++ "Cat",
                     StoredVal.cat { data := [toString now1], wordCount := JsNum.int 1,
                                     timestamp := some now1 }),
                    (toString now1,
                     StoredVal.set { id := toString now1,
                                     data := [{ date := today, data := [w] }],
                                     wordCount := JsNum.int 1 })]] } := by
    unfold addRecordStage3
    rw [h2]
    rfl
  have hst1 : (addRecord st today now1 area w).1
      = (st.set1 (area ++ "Cat")
            (StoredVal.cat { data := [toString now1], wordCount := JsNum.int 1,
                             timestamp := some now1 })).set1 (toString now1)
          (StoredVal.set { id := toString now1, data := [{ date := today, data := [w] }],
                           wordCount := JsNum.int 1 }) := by
    have e : (addRecord st today now1 area w).1
        = applyOps st ((addRecordStage1 st now1 area).ops
            ++ (addRecordStage2 st today now1 area).ops
            ++ (addRecordStage3 st today now1 area w).ops) := rfl
    rw [e, h1, h2, h3]
    rfl
  have hc1 : ((addRecord st today now1 area w).1).getCat (area ++ "Cat")
      = some { data := [toString now1], wordCount := JsNum.int 1, timestamp := some now1 } := by
    rw [hst1]
    exact getCat_eq _ _ _ (by rw [set1_other _ _ _ _ hkey, set1_same])
  have hs1 : ((addRecord st today now1 area w).1).getSet (toString now1)
      = some { id := toString now1, data := [{ date := today, data := [w] }],
               wordCount := JsNum.int 1 } := by
    rw [hst1]
    exact getSet_eq _ _ _ (set1_same _ _ _)
  have g1 : addRecordStage1 (addRecord st today now1 area w).1 now2 area
      = { catalog := { data := [toString now1], wordCount := JsNum.int 1, timestamp := some now1 },
          latestSet := { id := toString now1, data := [{ date := today, data := [w] }],
                         wordCount := JsNum.int 1 },
          ops := [] } := by
    unfold addRecordStage1
    rw [hc1]
    exact getLatestSet_resolved _ now2 _ (toString now1) [] _ rfl hs1
  have g2 : addRecordStage2 (addRecord st today now1 area w).1 today now2 area
      = { catalog := { data := [toString now1], wordCount := JsNum.int 1, timestamp := some now1 },
          latestSet := { id := toString now1, data := [{ date := today, data := [w] }],
                         wordCount := JsNum.int 1 },
          todayItem := { date := today, data := [w] }, ops := [] } := by
    unfold addRecordStage2
    rw [g1]
    exact getTodayItem_same_day today now2 _ _ { date := today, data := [w] } [] rfl rfl
  have g3w : addRecordStage3 (addRecord st today now1 area w).1 today now2 area w
      = { catalog := { data := [toString now1], wordCount := JsNum.int 1, timestamp := some now2 },
          latestSet := { id := toString now1, data := [{ date := today, data := [w] }],
                         wordCount := JsNum.int 1 },
          ops := [StoreOp.setOp
                   [(area ++ "Cat",
                     StoredVal.cat { data := [toString now1], wordCount := JsNum.int 1,
                                     timestamp := some now2 }),
                    (toString now1,
                     StoredVal.set { id := toString now1,
                                     data := [{ date := today, data := [w] }],
                                     wordCount := JsNum.int 1 })]] } := by
    unfold addRecordStage3
    rw [g2]
    simp [appendAndSave, jsIndexOf]
  have g3v : addRecordStage3 (addRecord st today now1 area w).1 today now2 area w2
      = { catalog := { data := [toString now1], wordCount := JsNum.int 2, timestamp := some now2 },
          latestSet := { id := toString now1, data := [{ date := today, data := [w2, w] }],
                         wordCount := JsNum.int 2 },
          ops := [StoreOp.setOp
                   [(area ++ "Cat",
                     StoredVal.cat { data := [toString now1], wordCount := JsNum.int 2,
                                     timestamp := some now2 }),
                    (toString now1,
                     StoredVal.set { id := toString now1,
                                     data := [{ date := today, data := [w2, w] }],
                                     wordCount := JsNum.int 2 })]] } := by
    have hne' : ¬ w = w2 := fun h => hne h.symm
    unfold addRecordStage3
    rw [g2]
    simp [appendAndSave, jsIndexOf, hne']
    norm_num [JsNum.addInt]
  have hst2w : (addRecord (addRecord st today now1 area w).1 today now2 area w).1
      = (((addRecord st today now1 area w).1).set1 (area ++ "Cat")
            (StoredVal.cat { data := [toString now1], wordCount := JsNum.int 1,
                             timestamp := some now2 })).set1 (toString now1)
          (StoredVal.set { id := toString now1, data := [{ date := today, data := [w] }],
                           wordCount := JsNum.int 1 }) := by
    have e : (addRecord (addRecord st today now1 area w).1 today now2 area w).1
        = applyOps (addRecord st today now1 area w).1
            ((addRecordStage1 (addRecord st today now1 area w).1 now2 area).ops
              ++ (addRecordStage2 (addRecord st today now1 area w).1 today now2 area).ops
              ++ (addRecordStage3 (addRecord st today now1 area w).1 today now2 area w).ops) := rfl
    rw [e, g1, g2, g3w]
    rfl
  have hst2v : (addRecord (addRecord st today now1 area w).1 today now2 area w2).1
      = (((addRecord st today now1 area w).1).set1 (area ++ "Cat")
            (StoredVal.cat { data := [toString now1], wordCount := JsNum.int 2,
                             timestamp := some now2 })).set1 (toString now1)
          (StoredVal.set { id := toString now1, data := [{ date := today, data := [w2, w] }],
                           wordCount := JsNum.int 2 }) := by
    have e : (addRecord (addRecord st today now1 area w).1 today now2 area w2).1
        = applyOps (addRecord st today now1 area w).1
            ((addRecordStage1 (addRecord st today now1 area w).1 now2 area).ops
              ++ (addRecordStage2 (addRecord st today now1 area w).1 today now2 area).ops
              ++ (addRecordStage3 (addRecord st today now1 area w).1 today now2 area w2).ops) := rfl
    rw [e, g1, g2, g3v]
    rfl
  refine ⟨?_, ?_, ?_, ?_, ?_, ?_⟩
  · unfold catWC
    rw [hst2w, getCat_eq _ _ _ (by rw [set1_other _ _ _ _ hkey, set1_same])]
    rfl
  · unfold setData
    rw [hst2w, getSet_eq _ _ _ (set1_same _ _ _)]
    rfl
  · unfold setWC
    rw [hst2w, getSet_eq _ _ _ (set1_same _ _ _)]
    rfl
  · unfold catWC
    rw [hst2v, getCat_eq _ _ _ (by rw [set1_other _ _ _ _ hkey, set1_same])]
    rfl
  · unfold setData
    rw [hst2v, getSet_eq _ _ _ (set1_same _ _ _)]
    rfl
  · unfold setWC
    rw [hst2v, getSet_eq _ _ _ (set1_same _ _ _)]
    rfl

/-- Witness for C7 on a concrete fresh namespace. -/
theorem c7_reappend_same_day_witness :
    emptyStore ("a" ++ "Cat") = none
    ∧ "a" ++ "Cat" ≠ toString 1
    ∧ "y" ≠ "x"
    ∧ (catWC (addRecord (addRecord emptyStore "02012024" 1 "a" "x").1 "02012024" 2 "a" "x").1
          ("a" ++ "Cat") = some (JsNum.int 1)
       ∧ setData (addRecord (addRecord emptyStore "02012024" 1 "a" "x").1 "02012024" 2 "a" "x").1
          (toString 1) = some [{ date := "02012024", data := ["x"] }]
       ∧ setWC (addRecord (addRecord emptyStore "02012024" 1 "a" "x").1 "02012024" 2 "a" "x").1
          (toString 1) = some (JsNum.int 1)
       ∧ catWC (addRecord (addRecord emptyStore "02012024" 1 "a" "x").1 "02012024" 2 "a" "y").1
          ("a" ++ "Cat") = some (JsNum.int 2)
       ∧ setData (addRecord (addRecord emptyStore "02012024" 1 "a" "x").1 "02012024" 2 "a" "y").1
          (toString 1) = some [{ date := "02012024", data := ["y", "x"] }]
       ∧ setWC (addRecord (addRecord emptyStore "02012024" 1 "a" "x").1 "02012024" 2 "a" "y").1
          (toString 1) = some (JsNum.int 2)) :=
  ⟨rfl, by decide, by decide,
   c7_reappend_same_day emptyStore "02012024" 1 2 "a" "x" "y" rfl (by decide) (by decide)⟩
